import Mathlib

/-!
Shallow embedding of the vecui library: the `Vec`/`Rect` classes and the
`vec`/`rect` factories of `src/lib/main.ts`, together with the `UIRect`
variant of `src/unnamed/part_000`.  Numeric components are modelled as
exact rationals; a separate `JSNum` type with explicit NaN and signed
infinities models the IEEE-754 special values needed for the
degenerate-input behaviour (division by zero, normalizing the zero
vector), where every involved operation is exact.
-/

namespace VecUI

/-- An immutable 2D vector: class `Vec` of `src/lib/main.ts`
(`class Vector` in the `part_000` variant), holding components `x` and
`y`. -/
structure Vec where
  x : ℚ
  y : ℚ
  deriving DecidableEq, Repr

/-- The input shapes accepted by the `vec` factory: a plain number, a
two-element array, or any record exposing numeric `x`/`y` fields (the
record case keeps only those two fields, as the source reads only
`.x`/`.y`). -/
inductive VecArg where
  | num (x : ℚ)
  | arr (a b : ℚ)
  | obj (x y : ℚ)
  deriving DecidableEq, Repr

/-- The `vec` factory of `src/lib/main.ts` (lines 261-272): an array
input yields its two elements, a number input yields `(x, y ?? x)`
(the optional second argument modelled as `Option`, nullish coalescing
as `Option.getD`), and a record input yields `(obj.x, obj.y)`. -/
def vec (xOrArrayOrObject : VecArg) (y : Option ℚ) : Vec :=
  match xOrArrayOrObject with
  | .arr a b => ⟨a, b⟩
  | .num x => ⟨x, y.getD x⟩
  | .obj ox oy => ⟨ox, oy⟩

/-- The first argument of every binary `Vec` operation: either another
`Vec` or a number (`vecOrX : Vec | number` in the source). -/
inductive VecOrNum where
  | vector (v : Vec)
  | num (x : ℚ)
  deriving DecidableEq, Repr

/-- The operand resolution `vecOrX instanceof Vec ? vecOrX : vec(vecOrX, y)`
shared by every binary operation of `class Vec`. -/
def resolveOperand : VecOrNum → Option ℚ → Vec
  | .vector v, _ => v
  | .num x, y => vec (.num x) y

/-- `Vec.add` (main.ts lines 58-61): resolve the operand, then add
componentwise. -/
def Vec.add (self : Vec) (vecOrX : VecOrNum) (y : Option ℚ) : Vec :=
  let other := resolveOperand vecOrX y
  ⟨self.x + other.x, self.y + other.y⟩

/-- `Vec.sub` (main.ts lines 76-79): resolve the operand, then subtract
componentwise. -/
def Vec.sub (self : Vec) (vecOrX : VecOrNum) (y : Option ℚ) : Vec :=
  let other := resolveOperand vecOrX y
  ⟨self.x - other.x, self.y - other.y⟩

/-- `Vec.div` (main.ts lines 100-103): resolve the operand, then divide
componentwise (exact-rational idealization; IEEE zero-divisor behaviour
is modelled separately on `JSNum`). -/
def Vec.div (self : Vec) (vecOrX : VecOrNum) (y : Option ℚ) : Vec :=
  let other := resolveOperand vecOrX y
  ⟨self.x / other.x, self.y / other.y⟩

/-- `Vec.dot` (main.ts lines 118-121): resolve the operand, then return
`x1*x2 + y1*y2`. -/
def Vec.dot (self : Vec) (vecOrX : VecOrNum) (y : Option ℚ) : ℚ :=
  let other := resolveOperand vecOrX y
  self.x * other.x + self.y * other.y

/-- `Vec.cross` (main.ts lines 136-139): resolve the operand, then return
`this.x * other.y - other.x * this.y`. -/
def Vec.cross (self : Vec) (vecOrX : VecOrNum) (y : Option ℚ) : ℚ :=
  let other := resolveOperand vecOrX y
  self.x * other.y - other.x * self.y

/-- `Vec.mul` (main.ts lines 160-163): resolve the operand, then multiply
componentwise (Hadamard product). -/
def Vec.mul (self : Vec) (vecOrX : VecOrNum) (y : Option ℚ) : Vec :=
  let other := resolveOperand vecOrX y
  ⟨self.x * other.x, self.y * other.y⟩

/-- `Vec.equals` (main.ts lines 234-237): resolve the operand, then test
exact componentwise equality (`===`, no epsilon tolerance). -/
def Vec.equals (self : Vec) (vecOrX : VecOrNum) (y : Option ℚ) : Bool :=
  let other := resolveOperand vecOrX y
  decide (self.x = other.x) && decide (self.y = other.y)

/-- The flat rectangle record `{x, y, width, height}` (`InputRect` in
main.ts). -/
structure InputRect where
  x : ℚ
  y : ℚ
  width : ℚ
  height : ℚ
  deriving DecidableEq, Repr

/-- An immutable rectangle: class `Rect` of main.ts, an origin vector `o`
and a dimension vector `d`. -/
structure Rect where
  o : Vec
  d : Vec
  deriving DecidableEq, Repr

/-- The input shapes accepted by the `rect` factory of main.ts: an
`(origin, dimension)` vector pair, or a flat `{x, y, width, height}`
record. -/
inductive RectArg where
  | od (origin dim : Vec)
  | input (r : InputRect)
  deriving DecidableEq, Repr

/-- The `rect` factory of main.ts (lines 346-354): a vector origin plus
dimension is stored directly; a flat record becomes
`Rect(vec(r.x, r.y), vec(r.width, r.height))`. -/
def rect : RectArg → Rect
  | .od origin dim => ⟨origin, dim⟩
  | .input r => ⟨vec (.num r.x) (some r.y), vec (.num r.width) (some r.height)⟩

/-- `Rect.setO` (main.ts lines 300-302): a new rectangle with the given
origin and this rectangle's dimension. -/
def Rect.setO (self : Rect) (origin : Vec) : Rect :=
  ⟨origin, self.d⟩

/-- `Rect.setD` (main.ts lines 309-311): a new rectangle with this
rectangle's origin and the given dimension. -/
def Rect.setD (self : Rect) (dim : Vec) : Rect :=
  ⟨self.o, dim⟩

/-- The argument shapes of `Vec.isInRect` (main.ts lines 202-205): a
`Rect`, a flat record, or an origin/dimension vector pair. -/
inductive RectShape where
  | rectArg (r : Rect)
  | inputArg (r : InputRect)
  | vecsArg (o d : Vec)
  deriving DecidableEq, Repr

/-- `Vec.isInRect` (main.ts lines 205-219): normalize the argument to a
`Rect` exactly as the source does, then test
`r.o.x <= x && r.o.x + r.d.x >= x && r.o.y <= y && r.o.y + r.d.y >= y`. -/
def Vec.isInRect (self : Vec) (inputOrO : RectShape) : Bool :=
  let r : Rect :=
    match inputOrO with
    | .rectArg r => r
    | .vecsArg o d => rect (.od o d)
    | .inputArg i => rect (.input i)
  decide (r.o.x ≤ self.x) && decide (r.o.x + r.d.x ≥ self.x) &&
    decide (r.o.y ≤ self.y) && decide (r.o.y + r.d.y ≥ self.y)

/-- The CSS-px rendering used by `styleObject` in main.ts. -/
def pxString (q : ℚ) : String :=
  toString q ++ "px"

/-- The record returned by calling `styleObject` (main.ts lines 325-330). -/
structure StyleObject where
  left : String
  top : String
  width : String
  height : String
  deriving DecidableEq, Repr

/-- The `styleObject` member of the `as` view of main.ts: the rectangle's
components as px strings under the names left, top, width, height. -/
def Rect.styleObject (self : Rect) : StyleObject :=
  ⟨pxString self.o.x, pxString self.o.y, pxString self.d.x, pxString self.d.y⟩

/-- In `cssText` (main.ts lines 331-335) the source applies
`Object.entries` to `this.styleObject` itself, the function value, not
to the record returned by calling it.  A JS function object has no
enumerable own properties, so its entry list is empty for every
rectangle. -/
def entriesOfStyleObjectFunction (_self : Rect) : List (String × String) :=
  []

/-- `cssText` of the `as` view of main.ts: map the entry list of the
`styleObject` function value through the template and join with a
space. -/
def Rect.cssText (self : Rect) : String :=
  String.intercalate " "
    ((entriesOfStyleObjectFunction self).map
      (fun kv => kv.1 ++ ": " ++ kv.2 ++ ";"))

/-- `Rect.equals` (main.ts lines 339-341): componentwise equality of both
vectors. -/
def Rect.equalsR (self other : Rect) : Bool :=
  Vec.equals other.o (.vector self.o) none && Vec.equals other.d (.vector self.d) none

/-- The enhanced rectangle of `src/unnamed/part_000` (`UIRect`): origin
and dimension vectors plus the `as` views defined below. -/
structure UIRect where
  o : Vec
  d : Vec
  deriving DecidableEq, Repr

/-- The `rect` factory of `part_000` (lines 252-289): an origin vector is
kept, its dimension passed through `vec` via the record branch; a flat
record goes through `vec({x, y, ...})` and `vec(width, height)`. -/
def rectV0 : RectArg → UIRect
  | .od origin dim => ⟨origin, vec (.obj dim.x dim.y) none⟩
  | .input r => ⟨vec (.obj r.x r.y) none, vec (.num r.width) (some r.height)⟩

/-- The field-remapping view `as([x, y, width, height])` of `part_000`
(lines 261-272): a JS object literal with the four caller-chosen keys,
modelled as its entry list in insertion order. -/
def UIRect.asNamed (self : UIRect) (x y width height : String) :
    List (String × ℚ) :=
  [(x, self.o.x), (y, self.o.y), (width, self.d.x), (height, self.d.y)]

/-- The record shape of the `as.css` shortcut of `part_000`. -/
structure CssRecord where
  left : ℚ
  top : ℚ
  width : ℚ
  height : ℚ
  deriving DecidableEq, Repr

/-- The `as.css` shortcut of `part_000` (lines 274-279): the components
under the fixed names left, top, width, height, as plain numbers. -/
def UIRect.asCss (self : UIRect) : CssRecord :=
  ⟨self.o.x, self.o.y, self.d.x, self.d.y⟩

/-- JS numbers for the degenerate-input behaviour: exact finite values
plus the IEEE-754 specials NaN and the two signed infinities.  Finite
arithmetic is idealized as exact rational arithmetic (rounding is not
modelled; the degenerate-input claims only involve operations whose
IEEE results are exact), and the negative zero is identified with
zero. -/
inductive JSNum where
  | nan
  | inf
  | ninf
  | fin (q : ℚ)
  deriving DecidableEq, Repr

/-- IEEE-754 addition on `JSNum`: NaN propagates, opposite infinities
give NaN, an infinity absorbs finite values, finite values add
exactly. -/
def jsAdd : JSNum → JSNum → JSNum
  | .nan, _ => .nan
  | _, .nan => .nan
  | .inf, .ninf => .nan
  | .ninf, .inf => .nan
  | .inf, _ => .inf
  | _, .inf => .inf
  | .ninf, _ => .ninf
  | _, .ninf => .ninf
  | .fin a, .fin b => .fin (a + b)

/-- IEEE-754 multiplication on `JSNum`: NaN propagates, infinity times
zero gives NaN, infinity times a nonzero value gives a signed infinity,
finite values multiply exactly. -/
def jsMul : JSNum → JSNum → JSNum
  | .nan, _ => .nan
  | _, .nan => .nan
  | .inf, .inf => .inf
  | .inf, .ninf => .ninf
  | .ninf, .inf => .ninf
  | .ninf, .ninf => .inf
  | .inf, .fin q => if q = 0 then .nan else if 0 < q then .inf else .ninf
  | .fin q, .inf => if q = 0 then .nan else if 0 < q then .inf else .ninf
  | .ninf, .fin q => if q = 0 then .nan else if 0 < q then .ninf else .inf
  | .fin q, .ninf => if q = 0 then .nan else if 0 < q then .ninf else .inf
  | .fin a, .fin b => .fin (a * b)

/-- IEEE-754 division on `JSNum`: NaN propagates, infinity over infinity
gives NaN, a finite value over infinity gives zero, zero over zero gives
NaN, a nonzero finite value over zero gives a signed infinity (the zero
divisor counting as positive zero), other finite quotients are exact. -/
def jsDiv : JSNum → JSNum → JSNum
  | .nan, _ => .nan
  | _, .nan => .nan
  | .inf, .inf => .nan
  | .inf, .ninf => .nan
  | .ninf, .inf => .nan
  | .ninf, .ninf => .nan
  | .inf, .fin q => if 0 ≤ q then .inf else .ninf
  | .ninf, .fin q => if 0 ≤ q then .ninf else .inf
  | .fin _, .inf => .fin 0
  | .fin _, .ninf => .fin 0
  | .fin a, .fin b =>
      if b = 0 then (if a = 0 then .nan else if 0 < a then .inf else .ninf)
      else .fin (a / b)

/-- IEEE-754 negation on `JSNum`: NaN propagates, the infinities swap
sign, finite values negate exactly (the negative zero being identified
with zero). -/
def jsNeg : JSNum → JSNum
  | .nan => .nan
  | .inf => .ninf
  | .ninf => .inf
  | .fin q => .fin (-q)

/-- IEEE-754 subtraction on `JSNum`: addition of the negation, which is
exact in IEEE-754. -/
def jsSub (a b : JSNum) : JSNum :=
  jsAdd a (jsNeg b)

/-- JS strict equality on numbers: NaN compares unequal to everything,
itself included; every other value compares structurally (negative
zero, identified with zero here, also compares equal to zero under
strict equality). -/
def jsEq : JSNum → JSNum → Bool
  | .nan, _ => false
  | _, .nan => false
  | a, b => decide (a = b)

/-- A vector over JS numbers, for the degenerate-input behaviour of
`Vec.div` and `Vec.norm`. -/
structure JSVec where
  x : JSNum
  y : JSNum
  deriving DecidableEq, Repr

/-- The binary-operand shape over JS numbers. -/
inductive JSVecOrNum where
  | vector (v : JSVec)
  | num (x : JSNum)
  deriving DecidableEq, Repr

/-- The number branch of the `vec` factory over JS numbers:
`(x, y ?? x)`. -/
def jsVec (x : JSNum) (y : Option JSNum) : JSVec :=
  ⟨x, y.getD x⟩

/-- Operand resolution of the binary operations over JS numbers. -/
def jsResolve : JSVecOrNum → Option JSNum → JSVec
  | .vector v, _ => v
  | .num x, y => jsVec x y

/-- `Vec.div` over JS numbers (main.ts lines 100-103), with IEEE
division. -/
def JSVec.div (self : JSVec) (vecOrX : JSVecOrNum) (y : Option JSNum) : JSVec :=
  let other := jsResolve vecOrX y
  ⟨jsDiv self.x other.x, jsDiv self.y other.y⟩

/-- `Vec.add` over JS numbers (main.ts lines 58-61), with IEEE
addition. -/
def JSVec.add (self : JSVec) (vecOrX : JSVecOrNum) (y : Option JSNum) : JSVec :=
  let other := jsResolve vecOrX y
  ⟨jsAdd self.x other.x, jsAdd self.y other.y⟩

/-- `Vec.sub` over JS numbers (main.ts lines 76-79), with IEEE
subtraction. -/
def JSVec.sub (self : JSVec) (vecOrX : JSVecOrNum) (y : Option JSNum) : JSVec :=
  let other := jsResolve vecOrX y
  ⟨jsSub self.x other.x, jsSub self.y other.y⟩

/-- `Vec.mul` over JS numbers (main.ts lines 160-163), with IEEE
multiplication. -/
def JSVec.mul (self : JSVec) (vecOrX : JSVecOrNum) (y : Option JSNum) : JSVec :=
  let other := jsResolve vecOrX y
  ⟨jsMul self.x other.x, jsMul self.y other.y⟩

/-- `Vec.equals` over JS numbers (main.ts lines 234-237): componentwise
strict equality. -/
def JSVec.equals (self : JSVec) (vecOrX : JSVecOrNum) (y : Option JSNum) : Bool :=
  let other := jsResolve vecOrX y
  jsEq self.x other.x && jsEq self.y other.y

/-- `Vec.len` over JS numbers (main.ts lines 169-171):
`Math.sqrt(x ** 2 + y ** 2)`, with `x ** 2` as `x * x` (exact for IEEE
doubles) and the host `Math.sqrt` passed as an explicit function. -/
def JSVec.len (sqrt : JSNum → JSNum) (self : JSVec) : JSNum :=
  sqrt (jsAdd (jsMul self.x self.x) (jsMul self.y self.y))

/-- `Vec.norm` over JS numbers (main.ts lines 177-180): divide both
components by the length. -/
def JSVec.norm (sqrt : JSNum → JSNum) (self : JSVec) : JSVec :=
  let length := JSVec.len sqrt self
  ⟨jsDiv self.x length, jsDiv self.y length⟩

/-- C1: the `vec` factory normalizes every accepted input shape to the
same canonical vector: `vec(x, y)` yields `(x, y)`, `vec(x)` with a
single number yields the uniform vector `(x, x)`, `vec([x, y])` yields
`(x, y)`, and `vec(r)` for a record with numeric `x`/`y` fields yields
`(r.x, r.y)`. -/
theorem C1_vec_factory_normalizes (x y : ℚ) :
    vec (.num x) (some y) = ⟨x, y⟩ ∧
    vec (.num x) none = ⟨x, x⟩ ∧
    vec (.arr x y) none = ⟨x, y⟩ ∧
    vec (.obj x y) none = ⟨x, y⟩ :=
  ⟨rfl, rfl, rfl, rfl⟩

/-- C2: every binary `Vec` operation gives the same result whether its
operand is passed as an explicit `(x, y)` pair or as the vector
`vec(x, y)`, because the operand is resolved through the factory before
computing: this holds for add, sub, div, mul, dot, cross and equals. -/
theorem C2_operand_interchangeable (v : Vec) (x y : ℚ) :
    v.add (.num x) (some y) = v.add (.vector (vec (.num x) (some y))) none ∧
    v.sub (.num x) (some y) = v.sub (.vector (vec (.num x) (some y))) none ∧
    v.div (.num x) (some y) = v.div (.vector (vec (.num x) (some y))) none ∧
    v.mul (.num x) (some y) = v.mul (.vector (vec (.num x) (some y))) none ∧
    v.dot (.num x) (some y) = v.dot (.vector (vec (.num x) (some y))) none ∧
    v.cross (.num x) (some y) = v.cross (.vector (vec (.num x) (some y))) none ∧
    v.equals (.num x) (some y) = v.equals (.vector (vec (.num x) (some y))) none :=
  ⟨rfl, rfl, rfl, rfl, rfl, rfl, rfl⟩

/-- C3: for every vector and every rectangle given in any of the three
accepted shapes, `isInRect` returns true exactly when the point lies
within the closed rectangle (inclusive bounds on all four sides); in
particular `vec(1,2).isInRect({x:0, y:0, width:2, height:3})` is true,
a point exactly on a boundary yields true, and a point strictly outside
a bound yields false. -/
theorem C3_isInRect_inclusive (v : Vec) (i : InputRect) (r : Rect) (o d : Vec) :
    (v.isInRect (.inputArg i) = true ↔
      (i.x ≤ v.x ∧ v.x ≤ i.x + i.width ∧ i.y ≤ v.y ∧ v.y ≤ i.y + i.height)) ∧
    (v.isInRect (.rectArg r) = true ↔
      (r.o.x ≤ v.x ∧ v.x ≤ r.o.x + r.d.x ∧ r.o.y ≤ v.y ∧ v.y ≤ r.o.y + r.d.y)) ∧
    (v.isInRect (.vecsArg o d) = true ↔
      (o.x ≤ v.x ∧ v.x ≤ o.x + d.x ∧ o.y ≤ v.y ∧ v.y ≤ o.y + d.y)) ∧
    (Vec.mk 1 2).isInRect (.inputArg ⟨0, 0, 2, 3⟩) = true ∧
    (Vec.mk 2 3).isInRect (.inputArg ⟨0, 0, 2, 3⟩) = true ∧
    (Vec.mk 3 1).isInRect (.inputArg ⟨0, 0, 2, 3⟩) = false := by
  refine ⟨?_, ?_, ?_, ?_, ?_, ?_⟩ <;>
    simp [Vec.isInRect, rect, vec, and_assoc, ge_iff_le] <;> norm_num

/-- C4: `cross` returns the 2D scalar cross product
`a.x * b.y - b.x * a.y`, equal to the textbook `x1*y2 - y1*x2`;
`vec(1,2).cross(3,4) = -2` and `vec(1,2).dot(3,4) = 11`, with `dot`
returning `x1*x2 + y1*y2`. -/
theorem C4_cross_dot_formulas (a b : Vec) :
    a.cross (.vector b) none = a.x * b.y - b.x * a.y ∧
    a.cross (.vector b) none = a.x * b.y - a.y * b.x ∧
    (Vec.mk 1 2).cross (.num 3) (some 4) = -2 ∧
    a.dot (.vector b) none = a.x * b.x + a.y * b.y ∧
    (Vec.mk 1 2).dot (.num 3) (some 4) = 11 := by
  refine ⟨rfl, ?_, ?_, rfl, ?_⟩ <;>
    simp [Vec.cross, Vec.dot, resolveOperand, vec] <;> norm_num
  ring

/-- Dividing any JS number by the zero divisor yields a signed infinity
or NaN, never a finite value. -/
theorem jsDiv_fin_zero (a : JSNum) :
    jsDiv a (.fin 0) = .inf ∨ jsDiv a (.fin 0) = .ninf ∨
      jsDiv a (.fin 0) = .nan := by
  cases a with
  | nan => simp [jsDiv]
  | inf => simp [jsDiv]
  | ninf => simp [jsDiv]
  | fin q =>
    simp only [jsDiv]
    split_ifs <;> simp_all

/-- C5: degenerate numeric inputs raise no error: for every vector and
every operand (vector, pair or lone scalar) whose resolved divisor has
a zero component, `div` yields Infinity, -Infinity or NaN in that
component, in particular `vec(1,2).div(0,1)` is `(Infinity, 2)`; and
`norm` on the zero vector `(0,0)` yields NaN in both components, for
any host square root with `sqrt(0) = 0` (as IEEE-754 requires of
`Math.sqrt`); every involved operation is total, with no special-case
branch for these inputs. -/
theorem C5_degenerate_inputs (sqrt : JSNum → JSNum)
    (hsqrt : sqrt (.fin 0) = .fin 0)
    (v : JSVec) (vecOrX : JSVecOrNum) (yArg : Option JSNum) :
    ((jsResolve vecOrX yArg).x = .fin 0 →
      (JSVec.div v vecOrX yArg).x = .inf ∨
      (JSVec.div v vecOrX yArg).x = .ninf ∨
      (JSVec.div v vecOrX yArg).x = .nan) ∧
    ((jsResolve vecOrX yArg).y = .fin 0 →
      (JSVec.div v vecOrX yArg).y = .inf ∨
      (JSVec.div v vecOrX yArg).y = .ninf ∨
      (JSVec.div v vecOrX yArg).y = .nan) ∧
    JSVec.div ⟨.fin 1, .fin 2⟩ (.num (.fin 0)) (some (.fin 1)) =
      ⟨.inf, .fin 2⟩ ∧
    JSVec.norm sqrt ⟨.fin 0, .fin 0⟩ = ⟨.nan, .nan⟩ := by
  refine ⟨?_, ?_, ?_, ?_⟩
  · intro hx
    simpa [JSVec.div, hx] using jsDiv_fin_zero v.x
  · intro hy
    simpa [JSVec.div, hy] using jsDiv_fin_zero v.y
  · norm_num [JSVec.div, jsResolve, jsVec, jsDiv]
  · simp only [JSVec.norm, JSVec.len]
    rw [show jsAdd (jsMul (.fin 0) (.fin 0)) (jsMul (.fin 0) (.fin 0)) =
      JSNum.fin 0 from by norm_num [jsMul, jsAdd], hsqrt]
    norm_num [jsDiv]

/-- Witness for C5: the theorem applied at the constant-zero square
root (which satisfies the hypothesis definitionally) and the concrete
call `vec(1,2).div(0,1)`. -/
theorem C5_degenerate_inputs_witness :
    JSVec.div ⟨.fin 1, .fin 2⟩ (.num (.fin 0)) (some (.fin 1)) =
      ⟨.inf, .fin 2⟩ ∧
    JSVec.norm (fun _ => JSNum.fin 0) ⟨.fin 0, .fin 0⟩ = ⟨.nan, .nan⟩ :=
  ⟨(C5_degenerate_inputs (fun _ => JSNum.fin 0) rfl ⟨.fin 1, .fin 2⟩
      (.num (.fin 0)) (some (.fin 1))).2.2.1,
   (C5_degenerate_inputs (fun _ => JSNum.fin 0) rfl ⟨.fin 1, .fin 2⟩
      (.num (.fin 0)) (some (.fin 1))).2.2.2⟩

/-- C6 counterexample: over JS numbers, which admit the IEEE special
values, the universally quantified identities are false at concrete
vectors: with `v = vec(NaN, 0)`, `v.add(0,0).equals(v)` and
`v.mul(1,1).equals(v)` are false because NaN is strictly unequal to
itself, and with `v = vec(Infinity, 0)`, `v.sub(v).equals(vec(0,0))` is
false because Infinity minus Infinity is NaN. -/
theorem C6_identities_counterexample :
    (JSVec.add ⟨.nan, .fin 0⟩ (.num (.fin 0)) (some (.fin 0))).equals
      (.vector ⟨.nan, .fin 0⟩) none = false ∧
    (JSVec.mul ⟨.nan, .fin 0⟩ (.num (.fin 1)) (some (.fin 1))).equals
      (.vector ⟨.nan, .fin 0⟩) none = false ∧
    (JSVec.sub ⟨.inf, .fin 0⟩ (.vector ⟨.inf, .fin 0⟩) none).equals
      (.vector (jsVec (.fin 0) (some (.fin 0)))) none = false :=
  ⟨rfl, rfl, rfl⟩

/-- C6 (amended): for every vector whose components are finite numbers,
`v.add(0,0).equals(v)`, `v.mul(1,1).equals(v)`, and
`v.sub(v).equals(vec(0,0))`, with `equals` the exact componentwise
strict equality with no epsilon tolerance; on NaN or Infinity
components the identities can fail (NaN is strictly unequal to itself,
Infinity minus Infinity is NaN). -/
theorem C6_identities_finite (a b : ℚ) :
    (JSVec.add ⟨.fin a, .fin b⟩ (.num (.fin 0)) (some (.fin 0))).equals
      (.vector ⟨.fin a, .fin b⟩) none = true ∧
    (JSVec.mul ⟨.fin a, .fin b⟩ (.num (.fin 1)) (some (.fin 1))).equals
      (.vector ⟨.fin a, .fin b⟩) none = true ∧
    (JSVec.sub ⟨.fin a, .fin b⟩ (.vector ⟨.fin a, .fin b⟩) none).equals
      (.vector (jsVec (.fin 0) (some (.fin 0)))) none = true := by
  simp [JSVec.add, JSVec.mul, JSVec.sub, JSVec.equals, jsResolve, jsVec,
    jsAdd, jsMul, jsSub, jsNeg, jsEq]

/-- C7: the `as` view of the `part_000` rectangle is a pure read-only
projection that round-trips the four components:
`rect(vec(1,2), vec(3,4)).as(["x","y","width","height"])` equals
`{x:1, y:2, width:3, height:4}` (origin under the first two names,
dimension under the last two, for any choice of names), and the
no-argument `as.css` shortcut yields
`{left:1, top:2, width:3, height:4}`; both return plain records and
create no new rectangle. -/
theorem C7_as_roundtrip (origin dim : Vec) (x y width height : String) :
    (rectV0 (.od origin dim)).asNamed x y width height =
      [(x, origin.x), (y, origin.y), (width, dim.x), (height, dim.y)] ∧
    (rectV0 (.od origin dim)).asCss = ⟨origin.x, origin.y, dim.x, dim.y⟩ ∧
    (rectV0 (.od ⟨1, 2⟩ ⟨3, 4⟩)).asNamed "x" "y" "width" "height" =
      [("x", 1), ("y", 2), ("width", 3), ("height", 4)] ∧
    (rectV0 (.od ⟨1, 2⟩ ⟨3, 4⟩)).asCss = ⟨1, 2, 3, 4⟩ :=
  ⟨rfl, rfl, rfl, rfl⟩

/-- C8: `setO` and `setD` are copy-producing setters changing only their
own field: `r.setO(v)` has origin `v` and the dimension of `r`,
`r.setD(v)` has dimension `v` and the origin of `r`; the receiver is an
immutable value and is untouched (in this embedding both setters are
pure functions of `r`, so `r` itself keeps its fields by
construction). -/
theorem C8_setters_frame (r : Rect) (v : Vec) :
    (r.setO v).o = v ∧ (r.setO v).d = r.d ∧
    (r.setD v).d = v ∧ (r.setD v).o = r.o ∧
    r.setO v = ⟨v, r.d⟩ ∧ r.setD v = ⟨r.o, v⟩ :=
  ⟨rfl, rfl, rfl, rfl, rfl, rfl⟩

/-- C9: `cross` accepts the omitted-y uniform-scalar shorthand: the
operand resolves to the uniform vector `(s, s)` and
`v.cross(s) = v.x * s - s * v.y`, equal to `v.cross(vec(s, s))`. -/
theorem C9_cross_uniform_shorthand (v : Vec) (s : ℚ) :
    resolveOperand (.num s) none = ⟨s, s⟩ ∧
    v.cross (.num s) none = v.x * s - s * v.y ∧
    v.cross (.num s) none = v.cross (.vector (vec (.num s) none)) none :=
  ⟨rfl, rfl, rfl⟩

/-- C10: in the main library variant, `r.as.cssText()` returns the empty
string for every rectangle, because the implementation enumerates the
own properties of the `styleObject` function value (none) instead of
the record it returns. -/
theorem C10_cssText_always_empty (r : Rect) :
    r.cssText = "" :=
  rfl

end VecUI
